import Mathlib

/-!
Verification of the Lupine Game Engine build-environment provisioning scripts.

The definitions below are a shallow embedding of the Python sources:
  * scripts/setup_build_environment.py  (current snapshot)
  * resources/setup_build_environment.py (older snapshot, "legacy" below)
  * scripts/build_precompiled_libs.py
  * scripts/test_precompiled_libs.py
Side-effecting operations are modelled as pure functions from an explicit
environment (subprocess exit codes, network responses, filesystem contents)
to an event trace plus result values.  `_run_command` with check=True calls
sys.exit(1) on failure (a SystemExit, caught by the bare `except:` blocks of
the callers); with check=False it returns normally whatever the exit code.
-/

namespace Lupine

/-- Observable side effects performed by the provisioning scripts. -/
inductive Event where
  | chocoInstall (pkg : String)
  | gitClone (url : String) (dest : String)
  | vcpkgBootstrap
  | downloadAttempt (archive : String)
  | vcpkgInstall (pkg : String) (triplet : String)
  | vcpkgIntegrate
  | staticQtInstall
  | brewInstall (pkg : String)
  | aptInstall (pkgs : List String)
  | pipInstall (pkg : String)
  | skipPresent (platform : String)
  | mkdirPlatform (platform : String)
  | manifestWrite
  | brewBootstrap
  | aptUpdate
  deriving DecidableEq, Repr

/-- True exactly on a `downloadAttempt` event. -/
def Event.isDownloadAttempt : Event → Bool
  | .downloadAttempt _ => true
  | _ => false

/-- True exactly on a `vcpkgInstall` event. -/
def Event.isVcpkgInstall : Event → Bool
  | .vcpkgInstall _ _ => true
  | _ => false

/-! ## C1: ordering of precompiled download vs package-manager install
Model of `_install_windows_dependencies` from scripts/setup_build_environment.py
(lines 201-300) and from resources/setup_build_environment.py (lines 128-202). -/

/-- Essential vcpkg dependency list of the scripts snapshot (line 267). -/
def essentialDependencies : List String :=
  ["sdl2", "glm", "nlohmann-json", "glad", "lua", "pybind11"]

/-- Optional vcpkg dependency list of the scripts snapshot (line 288). -/
def optionalDependencies : List String :=
  ["libjpeg-turbo", "freetype", "sqlite3", "pugixml",
   "libogg", "libvorbis", "libflac", "opus", "mpg123",
   "bzip2", "liblzma", "lz4", "zstd"]

/-- Windows triplet from `_detect_system`. -/
def winTriplet : String := "x64-windows-static"

/-- Environment facts consulted by `_install_windows_dependencies` (scripts). -/
structure WinEnv where
  haveCmake : Bool
  haveGit : Bool
  haveChoco : Bool
  vcpkgDirExists : Bool
  force : Bool
  downloadOk : Bool
  noQt : Bool
  staticQtOk : Bool
  vcpkgQtOk : Bool
  devOnly : Bool
  deriving DecidableEq

/-- Event trace of `_install_windows_dependencies` (scripts snapshot).  The
function first bootstraps cmake/git via chocolatey and vcpkg itself, then
tries `_download_precompiled_libraries`; on success it returns at once, and
only on failure does it run the vcpkg package installs. -/
def installWindowsDependencies (env : WinEnv) : List Event :=
  let toolEvents :=
    (if !env.haveCmake then
       (if env.haveChoco then [Event.chocoInstall "cmake"] else []) else []) ++
    (if !env.haveGit then
       (if env.haveChoco then [Event.chocoInstall "git"] else []) else [])
  let vcpkgSetup :=
    if !env.vcpkgDirExists || env.force then
      [Event.gitClone "https://github.com/Microsoft/vcpkg.git" "thirdparty/vcpkg",
       Event.vcpkgBootstrap]
    else []
  let dl := [Event.downloadAttempt ("lupine-libs-" ++ winTriplet ++ ".zip")]
  if env.downloadOk then
    toolEvents ++ vcpkgSetup ++ dl
  else
    let qtEvents :=
      if !env.noQt then
        Event.staticQtInstall ::
          (if !env.staticQtOk then [Event.vcpkgInstall "qtbase" winTriplet] else [])
      else []
    let essentials := essentialDependencies ++
      (if !env.noQt && !env.staticQtOk && env.vcpkgQtOk then ["qtbase"] else [])
    let essEvents := essentials.map (fun p => Event.vcpkgInstall p winTriplet)
    let optEvents :=
      if !env.devOnly then optionalDependencies.map (fun p => Event.vcpkgInstall p winTriplet)
      else []
    toolEvents ++ vcpkgSetup ++ dl ++ qtEvents ++ essEvents ++ optEvents ++ [Event.vcpkgIntegrate]

/-- Dependency list of the legacy snapshot (resources, lines 158-181). -/
def legacyDependencies : List String :=
  ["sdl2", "sdl2-image", "sdl2-ttf", "sdl2-mixer",
   "glad", "glm", "assimp", "bullet3", "box2d",
   "lua", "yaml-cpp", "spdlog", "nlohmann-json",
   "libpng", "libjpeg-turbo", "freetype", "zlib",
   "openssl", "sqlite3", "pugixml",
   "libogg", "libvorbis", "libflac", "opus",
   "mpg123", "libsndfile", "wavpack",
   "bzip2", "liblzma", "lz4", "zstd", "brotli",
   "python3", "pybind11"]

/-- Environment facts consulted by the legacy `_install_windows_dependencies`. -/
structure LegacyWinEnv where
  haveCmake : Bool
  haveGit : Bool
  haveChoco : Bool
  vcpkgDirExists : Bool
  force : Bool
  noQt : Bool
  deriving DecidableEq

/-- Event trace of the legacy `_install_windows_dependencies` (resources
snapshot): it never attempts a precompiled download and always runs the
vcpkg installs. -/
def installWindowsDependenciesLegacy (env : LegacyWinEnv) : List Event :=
  let toolEvents :=
    (if !env.haveCmake then
       (if env.haveChoco then [Event.chocoInstall "cmake"] else []) else []) ++
    (if !env.haveGit then
       (if env.haveChoco then [Event.chocoInstall "git"] else []) else [])
  let vcpkgSetup :=
    if !env.vcpkgDirExists || env.force then
      [Event.gitClone "https://github.com/Microsoft/vcpkg.git" "thirdparty/vcpkg",
       Event.vcpkgBootstrap]
    else []
  let deps := legacyDependencies ++ (if !env.noQt then ["qtbase"] else [])
  toolEvents ++ vcpkgSetup ++ deps.map (fun p => Event.vcpkgInstall p winTriplet)
    ++ [Event.vcpkgIntegrate]

/-- Legacy environment for the counterexample: fresh machine, Qt wanted. -/
def legacyEnv0 : LegacyWinEnv :=
  { haveCmake := true, haveGit := true, haveChoco := true,
    vcpkgDirExists := true, force := false, noQt := false }

/-- Scripts-snapshot environment for the counterexample: cmake missing, choco
present, download available. -/
def scriptsEnv0 : WinEnv :=
  { haveCmake := false, haveGit := true, haveChoco := true,
    vcpkgDirExists := true, force := false, downloadOk := true,
    noQt := true, staticQtOk := true, vcpkgQtOk := true, devOnly := false }

/-- C1 counterexample: the claim fails on the repository as a whole.  In the
legacy snapshot (resources/setup_build_environment.py) the run performs vcpkg
package-manager installs although no precompiled-archive download is ever
attempted; and even in the scripts snapshot a chocolatey package-manager
install (cmake bootstrap) precedes the download attempt. -/
theorem c1_counterexample :
    (Event.vcpkgInstall "sdl2" winTriplet ∈ installWindowsDependenciesLegacy legacyEnv0
      ∧ (installWindowsDependenciesLegacy legacyEnv0).countP Event.isDownloadAttempt = 0)
    ∧ ((installWindowsDependencies scriptsEnv0).takeWhile
          (fun e => !(Event.isDownloadAttempt e))).contains (Event.chocoInstall "cmake")
        = true := by
  decide

/-- C1 amended: in the scripts snapshot of `_install_windows_dependencies`,
for the library requirements (the vcpkg dependency set) acquisition is
download-first: exactly one precompiled-archive download is attempted, it
precedes every vcpkg install, and if the download succeeds no vcpkg install
is performed at all in that run. -/
theorem c1_theorem (env : WinEnv) :
    (installWindowsDependencies env).countP Event.isDownloadAttempt = 1
    ∧ ((installWindowsDependencies env).takeWhile
        (fun e => !(Event.isVcpkgInstall e))).countP Event.isDownloadAttempt = 1
    ∧ (env.downloadOk = true →
        (installWindowsDependencies env).countP Event.isVcpkgInstall = 0) := by
  obtain ⟨c, g, ch, v, f, d, q, s, vq, dev⟩ := env
  cases c <;> cases g <;> cases ch <;> cases v <;> cases f <;> cases d <;>
    cases q <;> cases s <;> cases vq <;> cases dev <;> decide

/-- C1 witness: at a concrete environment where the download succeeds, the
amended theorem yields that no vcpkg install happens. -/
theorem c1_witness :
    (installWindowsDependencies scriptsEnv0).countP Event.isVcpkgInstall = 0 :=
  (c1_theorem scriptsEnv0).2.2 rfl

/-! ## C2: requirement exhaustion never aborts the remaining requirements
Model of the install loops of `_install_macos_dependencies` (scripts, lines
342-353) and `_install_linux_dependencies` (scripts, lines 404-418). -/

/-- Full macOS brew dependency list (core ++ audio ++ additional, lines
320-340 of the scripts snapshot). -/
def macAllDependencies : List String :=
  ["cmake", "pkg-config", "python3", "ninja",
   "sdl2", "sdl2_image", "sdl2_ttf", "sdl2_mixer",
   "assimp", "bullet", "lua", "yaml-cpp", "spdlog",
   "libpng", "jpeg", "freetype", "zlib", "openssl",
   "glm", "nlohmann-json", "pybind11",
   "libogg", "libvorbis", "flac", "opus", "mpg123", "libsndfile", "wavpack",
   "bzip2", "xz", "lz4", "zstd", "glfw"]

/-- Full Linux apt dependency list (build ++ runtime ++ dev ++ qt, lines
376-402 of the scripts snapshot; qt_deps is empty there). -/
def linuxAllDeps : List String :=
  ["build-essential", "cmake", "pkg-config", "git",
   "python3-dev", "python3-pip", "ninja-build",
   "libsdl2-dev", "libsdl2-image-dev", "libsdl2-ttf-dev", "libsdl2-mixer-dev",
   "libassimp-dev", "libbullet-dev", "liblua5.4-dev", "libyaml-cpp-dev",
   "libspdlog-dev", "libpng-dev", "libjpeg-dev", "libfreetype-dev",
   "zlib1g-dev", "libssl-dev", "libsqlite3-dev", "libpugixml-dev",
   "libogg-dev", "libvorbis-dev", "libflac-dev", "libopus-dev",
   "libmpg123-dev", "libsndfile1-dev", "libwavpack-dev",
   "nlohmann-json3-dev", "pybind11-dev", "libglad-dev",
   "libbz2-dev", "liblzma-dev", "liblz4-dev", "libzstd-dev",
   "libx11-dev", "libxext-dev", "libxrender-dev", "libgl1-mesa-dev",
   "libasound2-dev", "libpulse-dev", "libglfw3-dev", "libglm-dev"]

/-- Outcome of `_run_command` with check=True: on a failing command it calls
sys.exit(1), modelled as `.error 1` (a SystemExit value). -/
def runCommandChecked (failsCmd : Bool) : Except Nat Unit :=
  if failsCmd then .error 1 else .ok ()

/-- Install loop of `_install_macos_dependencies`: one `brew install` per
dependency; the bare `except:` catches the SystemExit raised inside
`_run_command`, records the dependency in failed_deps and continues with the
next one.  Returns (event trace, failed_deps). -/
def installMacosDepsLoop (fails : String → Bool) : List String → List Event × List String
  | [] => ([], [])
  | d :: rest =>
    let step : List Event × List String :=
      match runCommandChecked (fails d) with
      | .ok _ => ([Event.brewInstall d], [])
      | .error _ => ([Event.brewInstall d], [d])
    let tail := installMacosDepsLoop fails rest
    (step.1 ++ tail.1, step.2 ++ tail.2)

/-- Chunked install loop of `_install_linux_dependencies`: apt install in
chunks of 10; if a chunk fails (SystemExit caught by the bare `except:`), each
member of the chunk is retried individually, each retry again wrapped in a
bare `except:`. -/
def aptChunkLoop (chunkFails : List String → Bool) : List String → List Event
  | [] => []
  | d :: rest =>
    let chunk := d :: rest.take 9
    (Event.aptInstall chunk ::
        (if chunkFails chunk then chunk.map (fun x => Event.aptInstall [x]) else []))
      ++ aptChunkLoop chunkFails (rest.drop 9)
  termination_by l => l.length
  decreasing_by simp [List.length_drop]; omega

theorem installMacosDepsLoop_attempts (fails : String → Bool) :
    ∀ (l : List String), ∀ d ∈ l, Event.brewInstall d ∈ (installMacosDepsLoop fails l).1 := by
  intro l
  induction l with
  | nil => intro d hd; cases hd
  | cons x xs ih =>
    intro d hd
    rcases List.mem_cons.mp hd with h | h
    · subst h
      cases hx : fails d <;> simp [installMacosDepsLoop, runCommandChecked, hx]
    · cases hx : fails x <;>
        simp only [installMacosDepsLoop, runCommandChecked, hx, if_true, if_false,
          List.mem_append, List.mem_singleton] <;>
        exact Or.inr (ih d h)

theorem installMacosDepsLoop_failed (fails : String → Bool) :
    ∀ (l : List String), (installMacosDepsLoop fails l).2 = l.filter fails := by
  intro l
  induction l with
  | nil => simp [installMacosDepsLoop]
  | cons x xs ih =>
    cases hx : fails x <;>
      simp [installMacosDepsLoop, runCommandChecked, hx, ih, List.filter_cons]

theorem aptChunkLoop_covers (cf : List String → Bool) :
    ∀ (n : Nat) (l : List String), l.length ≤ n → ∀ d ∈ l,
      ∃ c, Event.aptInstall c ∈ aptChunkLoop cf l ∧ d ∈ c := by
  intro n
  induction n with
  | zero =>
    intro l hl d hd
    cases l with
    | nil => cases hd
    | cons x xs => simp at hl
  | succ n ih =>
    intro l hl d hd
    cases l with
    | nil => cases hd
    | cons x xs =>
      have hun : aptChunkLoop cf (x :: xs) =
          (Event.aptInstall (x :: xs.take 9) ::
            (if cf (x :: xs.take 9) then
              (x :: xs.take 9).map (fun y => Event.aptInstall [y]) else []))
          ++ aptChunkLoop cf (xs.drop 9) := by
        rw [aptChunkLoop]
      rcases List.mem_cons.mp hd with h | h
      · refine ⟨x :: xs.take 9, ?_, ?_⟩
        · rw [hun]; exact List.mem_append_left _ (List.mem_cons_self _ _)
        · simp [h]
      · have hsplit : d ∈ xs.take 9 ++ xs.drop 9 := by
          rw [List.take_append_drop]; exact h
        rcases List.mem_append.mp hsplit with h9 | h9
        · refine ⟨x :: xs.take 9, ?_, List.mem_cons_of_mem _ h9⟩
          rw [hun]; exact List.mem_append_left _ (List.mem_cons_self _ _)
        · have hlen : (xs.drop 9).length ≤ n := by
            simp only [List.length_cons] at hl
            simp only [List.length_drop]
            omega
          obtain ⟨c, hc, hdc⟩ := ih (xs.drop 9) hlen d h9
          exact ⟨c, by rw [hun]; exact List.mem_append_right _ hc, hdc⟩

/-- C2: in the macOS install loop every dependency in the catalog is
attempted regardless of which dependencies fail, the failed ones are exactly
recorded in failed_deps (not raised), and in the Linux chunked loop every
dependency is attempted no matter which chunks fail: exhaustion of one
requirement never aborts the remaining requirements and the loops always run
to completion with a final record of failures. -/
theorem c2_theorem (fails : String → Bool) (cf : List String → Bool) :
    (∀ d ∈ macAllDependencies,
        Event.brewInstall d ∈ (installMacosDepsLoop fails macAllDependencies).1)
    ∧ (installMacosDepsLoop fails macAllDependencies).2 = macAllDependencies.filter fails
    ∧ (∀ d ∈ linuxAllDeps, ∃ c, Event.aptInstall c ∈ aptChunkLoop cf linuxAllDeps ∧ d ∈ c) :=
  ⟨installMacosDepsLoop_attempts fails macAllDependencies,
   installMacosDepsLoop_failed fails macAllDependencies,
   aptChunkLoop_covers cf linuxAllDeps.length linuxAllDeps (Nat.le_refl _)⟩

/-- Failure pattern for the C2 witness: only lua fails. -/
def c2FailsLua : String → Bool := fun d => d == "lua"

/-- C2 witness: with lua failing on brew, a later dependency (zstd) is still
attempted, and with every apt chunk failing, libglm-dev is still attempted. -/
theorem c2_witness :
    Event.brewInstall "zstd" ∈ (installMacosDepsLoop c2FailsLua macAllDependencies).1
    ∧ (∃ c, Event.aptInstall c ∈ aptChunkLoop (fun _ => true) linuxAllDeps ∧ "libglm-dev" ∈ c) :=
  ⟨(c2_theorem c2FailsLua (fun _ => true)).1 "zstd" (by decide),
   (c2_theorem c2FailsLua (fun _ => true)).2.2 "libglm-dev" (by decide)⟩

/-! ## C3: failure behaviour of `_download_precompiled_libraries`
Model of scripts/setup_build_environment.py lines 689-730.  The download is
written to `local_path` inside the thirdparty directory; extraction is done
with `zip_ref.extractall(self.thirdparty_dir)` directly into the thirdparty
directory; `local_path.unlink()` runs only after a complete extraction. -/

/-- Outcome of the urlopen call. -/
inductive Net where
  | httpError (code : Nat)
  | urlError
  | resp (status : Nat) (size : Nat)
  deriving DecidableEq, Repr

/-- Shape of the downloaded archive: not a zip at all, or a zip whose
extraction yields `names` (raising after `k` members when `corruptAt = some k`). -/
inductive ArchiveSpec where
  | badZip
  | withEntries (names : List String) (corruptAt : Option Nat)
  deriving DecidableEq, Repr

/-- External world consulted by one `_download_precompiled_libraries` call. -/
structure FetchEnv where
  net : Net
  archive : ArchiveSpec
  deriving DecidableEq, Repr

/-- Directory an extraction call targets. -/
inductive ExtractDest where
  | thirdparty
  | staging
  deriving DecidableEq, Repr

/-- On-disk state of the thirdparty work directory. -/
structure FetchState where
  thirdpartyFiles : List String
  archiveFilePresent : Bool
  extractionsInto : List ExtractDest
  deriving DecidableEq, Repr

/-- Model of `_download_precompiled_libraries`.  Every exception raised by
the body (HTTPError, URLError, BadZipFile, mid-extraction errors) is caught
by one of the except clauses, so the function returns a Bool; the state
records what was already written to disk when the failure hit. -/
def downloadPrecompiledLibraries (env : FetchEnv) (st : FetchState) : FetchState × Bool :=
  match env.net with
  | .httpError _ => (st, false)
  | .urlError => (st, false)
  | .resp status size =>
    if status = 200 then
      let st1 := { st with archiveFilePresent := true }
      if size = 0 then (st1, false)
      else
        match env.archive with
        | .badZip => (st1, false)
        | .withEntries names none =>
          let st2 := { st1 with
            thirdpartyFiles := st1.thirdpartyFiles ++ names,
            extractionsInto := st1.extractionsInto ++ [ExtractDest.thirdparty] }
          ({ st2 with archiveFilePresent := false }, true)
        | .withEntries names (some k) =>
          ({ st1 with
             thirdpartyFiles := st1.thirdpartyFiles ++ names.take k,
             extractionsInto := st1.extractionsInto ++ [ExtractDest.thirdparty] }, false)
    else (st, false)

/-- Spec-side enumeration of the failing conditions named by the claim:
network error, HTTP non-200, empty download, corrupt archive. -/
def isFetchFailure (env : FetchEnv) : Bool :=
  match env.net with
  | .httpError _ => true
  | .urlError => true
  | .resp status size =>
    if status = 200 then
      if size = 0 then true
      else
        match env.archive with
        | .badZip => true
        | .withEntries _ c => c.isSome
    else true

/-- Environment for the C3 counterexample: HTTP 200, non-empty archive that
raises after extracting its first member. -/
def c3Env : FetchEnv :=
  { net := .resp 200 4096,
    archive := .withEntries ["Windows/lib/SDL2.lib", "Windows/lib/glad.lib"] (some 1) }

/-- Initially empty thirdparty directory. -/
def c3St : FetchState :=
  { thirdpartyFiles := [], archiveFilePresent := false, extractionsInto := [] }

/-- C3 counterexample: a corrupt archive makes the call return False, yet a
partial extraction (the first member) and the downloaded archive file are
left in the thirdparty work directory: there is no temp-staging step. -/
theorem c3_counterexample :
    (downloadPrecompiledLibraries c3Env c3St).2 = false
    ∧ (downloadPrecompiledLibraries c3Env c3St).1.thirdpartyFiles = ["Windows/lib/SDL2.lib"]
    ∧ (downloadPrecompiledLibraries c3Env c3St).1.archiveFilePresent = true := by
  decide

/-- C3 amended: every invocation returns a Bool with False exactly on the
failure conditions (network error, non-200, empty file, corrupt archive)
rather than raising; but every extraction it performs goes directly into the
thirdparty work directory, never into a temporary staging directory. -/
theorem c3_theorem (env : FetchEnv) (st : FetchState) :
    (downloadPrecompiledLibraries env st).2 = !(isFetchFailure env)
    ∧ ((downloadPrecompiledLibraries env st).1.extractionsInto = st.extractionsInto
        ∨ (downloadPrecompiledLibraries env st).1.extractionsInto
            = st.extractionsInto ++ [ExtractDest.thirdparty]) := by
  obtain ⟨net, arch⟩ := env
  cases net with
  | httpError code => simp [downloadPrecompiledLibraries, isFetchFailure]
  | urlError => simp [downloadPrecompiledLibraries, isFetchFailure]
  | resp status size =>
    by_cases hs : status = 200 <;>
      by_cases hz : size = 0 <;>
      rcases arch with _ | ⟨names, _ | k⟩ <;>
      simp [downloadPrecompiledLibraries, isFetchFailure, hs, hz]

/-! ## C4: platformReady is the AND of the non-optional requirement statuses
Model of `verify_dependencies` (scripts/setup_build_environment.py lines
1227-1314). -/

/-- Host operating system as classified by `_detect_system`. -/
inductive Sys where
  | windows
  | macos
  | linux
  deriving DecidableEq, Repr

/-- Filesystem and PATH facts consulted by `verify_dependencies`. -/
structure VerifyEnv where
  sys : Sys
  noQt : Bool
  haveCmake : Bool
  haveGit : Bool
  haveGcc : Bool
  haveGpp : Bool
  vsCompiler : Bool
  vcpkgExe : Bool
  haveBrew : Bool
  haveApt : Bool
  qtAqtInclude : Bool
  qtAqtLib : Bool
  qtVcpkg : Bool
  qtBrew : Bool
  qtQmake6 : Bool
  qtQmake : Bool
  qtExisting : Bool
  deriving DecidableEq

/-- Qt detection chain of `verify_dependencies`: per platform first the
aqtinstall layout, then the platform fallback, then `_detect_existing_qt`. -/
def qtFound (e : VerifyEnv) : Bool :=
  let q0 :=
    match e.sys with
    | .windows =>
      let q := e.qtAqtInclude && e.qtAqtLib
      if q then q else e.qtVcpkg
    | .macos =>
      let q := e.qtAqtInclude || e.qtAqtLib
      if q then q else e.qtBrew
    | .linux =>
      let q := e.qtAqtInclude || e.qtAqtLib
      if q then q else (e.qtQmake6 || e.qtQmake)
  if q0 then q0 else e.qtExisting

theorem qtFound_eq (e : VerifyEnv) :
    qtFound e =
      ((match e.sys with
        | .windows => (e.qtAqtInclude && e.qtAqtLib) || e.qtVcpkg
        | .macos => (e.qtAqtInclude || e.qtAqtLib) || e.qtBrew
        | .linux => (e.qtAqtInclude || e.qtAqtLib) || (e.qtQmake6 || e.qtQmake))
       || e.qtExisting) := by
  obtain ⟨sys, noQt, hc, hg, hgcc, hgpp, vs, vx, hb, ha, q1, q2, q3, q4, q5, q6, q7⟩ := e
  cases sys <;> cases q1 <;> cases q2 <;> cases q3 <;> cases q4 <;>
    cases q5 <;> cases q6 <;> cases q7 <;> rfl

/-- The missing_deps list assembled by `verify_dependencies`, in program
order: Visual Studio compiler, required tools, the platform package manager,
then Qt (only when not --no-qt). -/
def missingDeps (e : VerifyEnv) : List String :=
  let vsMissing :=
    match e.sys with
    | .windows => if !e.vsCompiler then ["Command: cl (Visual Studio compiler)"] else []
    | _ => []
  let requiredTools : List String :=
    match e.sys with
    | .windows => ["cmake", "git"]
    | _ => ["cmake", "git", "gcc", "g++"]
  let toolPresent : String → Bool := fun t =>
    if t = "cmake" then e.haveCmake
    else if t = "git" then e.haveGit
    else if t = "gcc" then e.haveGcc
    else e.haveGpp
  let toolMissing :=
    (requiredTools.filter (fun t => !toolPresent t)).map (fun t => "Command: " ++ t)
  let pmMissing :=
    match e.sys with
    | .windows => if !e.vcpkgExe then ["vcpkg not installed"] else []
    | .macos => if !e.haveBrew then ["Homebrew not installed"] else []
    | .linux => if !e.haveApt then ["apt package manager not available"] else []
  let qtMissing :=
    if !e.noQt then (if !(qtFound e) then ["Qt6 development libraries"] else []) else []
  vsMissing ++ toolMissing ++ pmMissing ++ qtMissing

/-- Return value of `verify_dependencies`: True iff missing_deps is empty. -/
def verifyDependencies (e : VerifyEnv) : Bool :=
  (missingDeps e).isEmpty

/-- Spec-side catalog of non-optional requirements checked by the verifier;
the Qt requirement is optional exactly when --no-qt was passed. -/
def nonOptionalRequirements (e : VerifyEnv) : List String :=
  (match e.sys with
   | .windows => ["cl", "cmake", "git", "vcpkg"]
   | .macos => ["cmake", "git", "gcc", "g++", "brew"]
   | .linux => ["cmake", "git", "gcc", "g++", "apt"])
  ++ (if e.noQt then [] else ["qt6"])

/-- Spec-side status of one requirement: its status is not Missing. -/
def requirementPresent (e : VerifyEnv) : String → Bool := fun r =>
  if r = "cl" then e.vsCompiler
  else if r = "cmake" then e.haveCmake
  else if r = "git" then e.haveGit
  else if r = "gcc" then e.haveGcc
  else if r = "g++" then e.haveGpp
  else if r = "vcpkg" then e.vcpkgExe
  else if r = "brew" then e.haveBrew
  else if r = "apt" then e.haveApt
  else qtFound e

/-- Spec-side readiness: the logical AND over all non-optional requirements
of "status is not Missing" (spec sections 3 and 8). -/
def platformReadySpec (e : VerifyEnv) : Bool :=
  (nonOptionalRequirements e).all (requirementPresent e)

set_option maxHeartbeats 2000000 in
/-- C4: the verification outcome returned by `verify_dependencies` equals
the AND over all non-optional requirements of "the requirement's status is
not Missing"; it is a pure function of the per-requirement statuses. -/
theorem c4_theorem (e : VerifyEnv) : verifyDependencies e = platformReadySpec e := by
  obtain ⟨sys, noQt, hc, hg, hgcc, hgpp, vs, vx, hb, ha, q1, q2, q3, q4, q5, q6, q7⟩ := e
  cases sys
  · cases noQt <;> cases hc <;> cases hg <;> cases vs <;> cases vx <;>
      cases q1 <;> cases q2 <;> cases q3 <;> cases q7 <;> rfl
  · cases noQt <;> cases hc <;> cases hg <;> cases hgcc <;> cases hgpp <;> cases hb <;>
      cases q1 <;> cases q2 <;> cases q4 <;> cases q7 <;> rfl
  · cases noQt <;> cases hc <;> cases hg <;> cases hgcc <;> cases hgpp <;> cases ha <;>
      cases q1 <;> cases q2 <;> cases q5 <;> cases q6 <;> cases q7 <;> rfl

/-! ## C5: requirements already present are skipped (no backend invocation)
Model of `setup_cross_compilation_libraries` (scripts lines 784-818) and
`_platform_libraries_exist` (scripts lines 820-833). -/

/-- Filesystem facts about the per-platform lib directories. -/
structure XFS where
  libDirExists : String → Bool
  libFiles : String → List String

/-- Essential library names probed by `_platform_libraries_exist`. -/
def essentialLibsCheck : List String := ["SDL2", "glad", "lua", "yaml-cpp"]

/-- True when `pat` matches at the head of `hay`. -/
def leadMatch : List Char → List Char → Bool
  | [], _ => true
  | _ :: _, [] => false
  | p :: ps, h :: hs => p == h && leadMatch ps hs

/-- True when `pat` occurs contiguously anywhere in the second list. -/
def hasSub (pat : List Char) : List Char → Bool
  | [] => leadMatch pat []
  | h :: hs => leadMatch pat (h :: hs) || hasSub pat hs

/-- Match of the glob pattern `*lib*` against a file name. -/
def globStarMatch (pat : String) (name : String) : Bool :=
  hasSub pat.toList name.toList

/-- Model of `_platform_libraries_exist`: the lib directory exists and every
essential library has at least one `*lib*` glob match in it. -/
def platformLibrariesExist (fs : XFS) (p : String) : Bool :=
  fs.libDirExists p &&
    essentialLibsCheck.all (fun lib => (fs.libFiles p).any (fun f => globStarMatch lib f))

/-- Target platforms and triplets of `setup_cross_compilation_libraries`. -/
def targetPlatforms : List (String × String) :=
  [("Windows", "x64-windows-static"), ("Linux", "x64-linux"),
   ("Mac-OSX", "x64-osx"), ("Mac-ARM64", "arm64-osx")]

/-- Event trace of `setup_cross_compilation_libraries`: per platform, mkdir,
then either skip (libraries already present) or one precompiled download
attempt; finally the manifest is written.  The `force` flag is accepted by
the orchestrator but this method never consults it: presence always skips. -/
def setupCrossCompilationLibraries (fs : XFS) (force : Bool) : List Event :=
  (targetPlatforms.map (fun pt =>
    Event.mkdirPlatform pt.1 ::
      (if platformLibrariesExist fs pt.1 then [Event.skipPresent pt.1]
       else [Event.downloadAttempt ("lupine-libs-" ++ pt.2 ++ ".zip")]))).flatten
  ++ [Event.manifestWrite]

/-- Archive name that a download for platform `p` would fetch. -/
def archiveFor (p : String) : String :=
  "lupine-libs-" ++ ((targetPlatforms.lookup p).getD "") ++ ".zip"

/-- True on any acquisition-backend invocation for platform `p`: a download
of the archive of `p`, or any package-manager install at all. -/
def Event.isBackendFor (p : String) : Event → Bool
  | .downloadAttempt a => a == archiveFor p
  | .vcpkgInstall _ _ => true
  | .brewInstall _ => true
  | .aptInstall _ => true
  | .chocoInstall _ => true
  | .pipInstall _ => true
  | _ => false

/-- C5: a platform whose libraries are already on disk gets zero backend
invocations in a `setup_cross_compilation_libraries` run, whatever the
force flag: no download attempt of its archive and no package-manager
install. -/
theorem c5_theorem (fs : XFS) (force : Bool) (p : String)
    (hp : p ∈ targetPlatforms.map Prod.fst)
    (hpresent : platformLibrariesExist fs p = true) :
    (setupCrossCompilationLibraries fs force).all
      (fun e => !(Event.isBackendFor p e)) = true := by
  fin_cases hp <;>
    cases hW : platformLibrariesExist fs "Windows" <;>
    cases hL : platformLibrariesExist fs "Linux" <;>
    cases hM : platformLibrariesExist fs "Mac-OSX" <;>
    cases hA : platformLibrariesExist fs "Mac-ARM64" <;>
    simp_all [setupCrossCompilationLibraries, targetPlatforms, Event.isBackendFor, archiveFor] <;>
    decide

/-- Concrete filesystem for the C5 witness: Windows libraries present. -/
def c5FS : XFS :=
  { libDirExists := fun p => p == "Windows",
    libFiles := fun p =>
      if p == "Windows" then ["SDL2.lib", "glad.lib", "lua.lib", "yaml-cpp.lib"] else [] }

/-- C5 witness: with the Windows libraries present on disk and force=false,
the run performs no backend invocation for Windows. -/
theorem c5_witness :
    (setupCrossCompilationLibraries c5FS false).all
      (fun e => !(Event.isBackendFor "Windows" e)) = true :=
  c5_theorem c5FS false "Windows" (by decide) (by decide)

/-! ## C6: recording of package-manager exit codes
Model of `_install_vcpkg_packages_parallel` (scripts lines 747-783) together
with `_run_command` (scripts lines 107-133).  `install_package` calls
`_run_command(cmd, capture=True, check=False)`; with check=False the
subprocess.run call does not raise on a non-zero exit code, so the
surrounding try never sees an exception. -/

/-- Behaviour of the vcpkg process for each package. -/
structure VcpkgRunEnv where
  exeExists : Bool
  exitCode : String → Nat
  stdoutOf : String → String

/-- Model of `_run_command`: subprocess.run raises CalledProcessError only
when `check` is set and the exit code is non-zero; in that case `_run_command`
prints and calls sys.exit(1) (modelled `.error 1`).  With check=False it
returns the captured stdout whatever the exit code. -/
def runCommand (exitCode : Nat) (out : String) (check : Bool) (capture : Bool) :
    Except Nat (Option String) :=
  if exitCode ≠ 0 && check then .error 1
  else .ok (if capture then some out else none)

/-- Per-package record produced by `install_package` inside
`_install_vcpkg_packages_parallel`: (package, success flag, captured output).
The except branch marks failure, but `runCommand` with check=False never
raises, so it is unreachable. -/
def installPackage (env : VcpkgRunEnv) (pkg : String) : String × Bool × String :=
  match runCommand (env.exitCode pkg) (env.stdoutOf pkg) false true with
  | .ok r => (pkg, true, r.getD "")
  | .error e => (pkg, false, toString e)

/-- Model of `_install_vcpkg_packages_parallel`: if the vcpkg executable is
missing it returns with no records; otherwise each package gets exactly one
install record, collected keyed by package. -/
def installVcpkgPackagesParallel (env : VcpkgRunEnv) (packages : List String) :
    List (String × Bool × String) :=
  if !env.exeExists then [] else packages.map (installPackage env)

/-- Failing input for C6: the vcpkg process exits with code 1 for sdl2 and
prints only a warning. -/
def c6Env : VcpkgRunEnv :=
  { exeExists := true,
    exitCode := fun _ => 1,
    stdoutOf := fun _ => "warning: could not install" }

/-- C6: evaluation at the failing input.  The manager exits with code 1 for
sdl2, yet the recorded outcome is success=true (the code then prints
"[OK] sdl2 installed successfully"); the failure branch of install_package is
unreachable because `_run_command` is called with check=False.  Furthermore
success is recorded for every package whatever its exit code. -/
theorem c6_theorem :
    installVcpkgPackagesParallel c6Env ["sdl2"]
      = [("sdl2", true, "warning: could not install")]
    ∧ (installVcpkgPackagesParallel c6Env ["sdl2", "glm"]).all (fun r => r.2.1) = true := by
  decide

/-! ## C7: hard-failure policy of a provisioning run
Model of `_detect_system` (scripts lines 58-105), which runs inside the
constructor before any install method, and of the dependency-acquisition
phase `install_system_dependencies` (scripts lines 190-425) including its
whole call tree: the vcpkg clone/bootstrap setup, the static-Qt installers
`_install_static_qt_windows` / `_install_static_qt_macos` /
`_install_static_qt_linux`, and `_install_python_dependencies`.
`sys.exit(1)` inside `_run_command` raises SystemExit, which derives from
BaseException: the bare `except:` blocks catch it, but the `except
Exception` handlers (vcpkg setup line 241, static Qt lines 628/685 and
568/575) let it escape, and so does the `except Exception` of main, so the
process exits 1.  `sys.exit(1)` is modelled as `.exited 1` and an uncaught
exception as `.raised`. -/

/-- Raw host introspection values (platform.system / platform.machine,
already lower-cased). -/
structure HostInfo where
  system : String
  machine : String
  deriving DecidableEq, Repr

/-- The system_info dictionary built by `_detect_system`. -/
structure SysInfo where
  system : String
  platformDir : String
  arch : String
  triplet : String
  packageManager : String
  libExt : String
  exeExt : String
  deriving DecidableEq, Repr

/-- Model of `_detect_system`: classifies windows/darwin/linux and raises
RuntimeError for everything else. -/
def detectSystem (h : HostInfo) : Except String SysInfo :=
  if h.system = "windows" then
    .ok { system := "windows", platformDir := "Windows", arch := "x64",
          triplet := "x64-windows-static", packageManager := "vcpkg",
          libExt := ".lib", exeExt := ".exe" }
  else if h.system = "darwin" then
    if h.machine = "arm64" ∨ h.machine = "aarch64" then
      .ok { system := "macos", platformDir := "Mac-ARM64", arch := "arm64",
            triplet := "arm64-osx", packageManager := "brew",
            libExt := ".a", exeExt := "" }
    else
      .ok { system := "macos", platformDir := "Mac-OSX", arch := "x86_64",
            triplet := "x64-osx", packageManager := "brew",
            libExt := ".a", exeExt := "" }
  else if h.system = "linux" then
    .ok { system := "linux", platformDir := "Linux", arch := "x64",
          triplet := "x64-linux", packageManager := "apt",
          libExt := ".a", exeExt := "" }
  else .error ("Unsupported system: " ++ h.system)

/-- Outcome of a run: normal completion with an event trace, a sys.exit, or
an uncaught exception, each with the acquisition events performed so far. -/
inductive RunResult where
  | completed (events : List Event)
  | exited (code : Nat) (events : List Event)
  | raised (msg : String) (events : List Event)
  deriving DecidableEq, Repr

/-- True exactly on a completed run. -/
def RunResult.isCompleted : RunResult → Bool
  | .completed _ => true
  | _ => false

/-- Outcome of one helper stage: returned True, returned False (an ordinary
Exception was caught), or a SystemExit escaped its except-Exception handler. -/
inductive StageResult where
  | ok (events : List Event)
  | failed (events : List Event)
  | abort (code : Nat) (events : List Event)
  deriving DecidableEq, Repr

/-- World facts consulted during the acquisition phase.  The windows fields
live in `win`; its staticQtOk summary field is not consulted here — the
static-Qt stage outcome is computed from the aqt fields below instead. -/
structure InstallEnv where
  win : WinEnv
  gitCloneVcpkgOk : Bool
  vcpkgBootstrapScriptExists : Bool
  vcpkgBootstrapOk : Bool
  existingQtFound : Bool
  aqtQtDirExists : Bool
  aqtPresent : Bool
  pipAqtOk : Bool
  staticQtOtherError : Bool
  aqtRunOk : Bool
  havePython : Bool
  haveBrew : Bool
  brewBootstrapOk : Bool
  clangExists : Bool
  brewFails : String → Bool
  noQt : Bool
  force : Bool
  aptUpdateOk : Bool
  aptChunkFails : List String → Bool
  qt6AptOk : Bool

/-- Model of `_install_static_qt_windows` / `_install_static_qt_macos`
(the two have the same structure).  An existing Qt installation or an
already-populated aqt target directory returns True with no commands; a
failing pip install of aqtinstall or a failing aqt run raises SystemExit
through the except-Exception handler (abort); any ordinary Exception inside
the try (for example a filesystem error, `staticQtOtherError`) is caught and
returns False. -/
def installStaticQtAqt (env : InstallEnv) (force : Bool) : StageResult :=
  if env.existingQtFound && !force then .ok []
  else if env.aqtQtDirExists && !force then .ok []
  else
    let pipEvents := if !env.aqtPresent then [Event.pipInstall "aqtinstall"] else []
    if !env.aqtPresent && !env.pipAqtOk then .abort 1 pipEvents
    else if env.staticQtOtherError then .failed pipEvents
    else
      let evs := pipEvents ++ [Event.staticQtInstall]
      if !env.aqtRunOk then .abort 1 evs
      else .ok evs

/-- Spec-side characterisation of the static-Qt stage not aborting: an
early exit (existing Qt, or target directory present, without force), or
the pip bootstrap of aqtinstall is not needed or succeeds and then either an
ordinary Exception cuts the stage short or the aqt run succeeds. -/
def staticQtNoAbort (env : InstallEnv) (force : Bool) : Bool :=
  (env.existingQtFound && !force) || (env.aqtQtDirExists && !force) ||
    ((env.aqtPresent || env.pipAqtOk) && (env.staticQtOtherError || env.aqtRunOk))

theorem installStaticQtAqt_isAbort (env : InstallEnv) (force : Bool) :
    (match installStaticQtAqt env force with
     | .abort _ _ => true
     | _ => false) = !(staticQtNoAbort env force) := by
  obtain ⟨win, gco, bse, bok, eqf, aqd, aqp, pao, sqe, aro,
    hpy, hb, bbo, ce, bf, nq, fc, auo, acf, q6⟩ := env
  cases eqf <;> cases force <;> cases aqd <;> cases aqp <;> cases pao <;>
    cases sqe <;> cases aro <;> rfl

/-- Python packages installed by `_install_python_dependencies`. -/
def pythonPackages : List String := ["pybind11", "numpy", "requests", "cmake"]

/-- Events of `_install_python_dependencies`: one pip attempt per package
(the user/system retry is collapsed into one attempt marker), each wrapped
in bare `except:` blocks, so the helper never aborts; with no python
executable on PATH it returns with no events. -/
def pythonDepsEvents (env : InstallEnv) : List Event :=
  if env.havePython then pythonPackages.map Event.pipInstall else []

/-- Tail of the Windows install after the vcpkg setup: download attempt,
early return on success, otherwise the static-Qt stage (whose SystemExit
escapes; its False outcome falls back to a vcpkg qtbase install wrapped in a
bare except) and then the parallel vcpkg installs, which never raise. -/
def windowsInstallPhase (env : InstallEnv) (evs : List Event) (qtFellBack : Bool) : RunResult :=
  let essentials := essentialDependencies ++
    (if qtFellBack && env.win.vcpkgQtOk then ["qtbase"] else [])
  let essEvents := essentials.map (fun p => Event.vcpkgInstall p winTriplet)
  let optEvents :=
    if !env.win.devOnly then optionalDependencies.map (fun p => Event.vcpkgInstall p winTriplet)
    else []
  .completed (evs ++ essEvents ++ optEvents ++ [Event.vcpkgIntegrate])

def windowsAfterSetup (env : InstallEnv) (evs : List Event) : RunResult :=
  let evs := evs ++ [Event.downloadAttempt ("lupine-libs-" ++ winTriplet ++ ".zip")]
  if env.win.downloadOk then .completed evs
  else if !env.win.noQt then
    match installStaticQtAqt env env.win.force with
    | .abort c qevs => .exited c (evs ++ qevs)
    | .ok qevs => windowsInstallPhase env (evs ++ qevs) false
    | .failed qevs =>
      windowsInstallPhase env (evs ++ qevs ++ [Event.vcpkgInstall "qtbase" winTriplet]) true
  else windowsInstallPhase env evs false

/-- Model of `_install_windows_dependencies` with its abort paths: the choco
tool installs are wrapped in bare excepts (never abort), but the vcpkg git
clone and bootstrap run inside an except-Exception handler, so their
SystemExit aborts the run; likewise the static-Qt stage after a failed
download. -/
def installWindowsFull (env : InstallEnv) : RunResult :=
  let toolEvents :=
    (if !env.win.haveCmake then
       (if env.win.haveChoco then [Event.chocoInstall "cmake"] else []) else []) ++
    (if !env.win.haveGit then
       (if env.win.haveChoco then [Event.chocoInstall "git"] else []) else [])
  if !env.win.vcpkgDirExists || env.win.force then
    let ev1 := toolEvents ++
      [Event.gitClone "https://github.com/Microsoft/vcpkg.git" "thirdparty/vcpkg"]
    if !env.gitCloneVcpkgOk then .exited 1 ev1
    else if env.vcpkgBootstrapScriptExists then
      let ev2 := ev1 ++ [Event.vcpkgBootstrap]
      if !env.vcpkgBootstrapOk then .exited 1 ev2
      else windowsAfterSetup env ev2
    else windowsAfterSetup env ev1
  else windowsAfterSetup env toolEvents

/-- Model of `_install_macos_dependencies`: un-wrapped Homebrew bootstrap
fetch (raises on failure), sys.exit(1) when /usr/bin/clang is missing, then
the brew loop (bare excepts, never aborts), python packages, and the
static-Qt stage whose SystemExit escapes; its False outcome falls back to a
brew qt6 install wrapped in a bare except. -/
def installMacosFull (env : InstallEnv) : RunResult :=
  let pre := if !env.haveBrew then [Event.brewBootstrap] else []
  if !env.haveBrew && !env.brewBootstrapOk then
    .raised "homebrew install script fetch failed" pre
  else if !env.clangExists then .exited 1 pre
  else
    let evs := pre ++ (installMacosDepsLoop env.brewFails macAllDependencies).1
      ++ pythonDepsEvents env
    if !env.noQt then
      match installStaticQtAqt env env.force with
      | .abort c qevs => .exited c (evs ++ qevs)
      | .ok qevs => .completed (evs ++ qevs)
      | .failed qevs => .completed (evs ++ qevs ++ [Event.brewInstall "qt6"])
    else .completed evs

/-- Qt6 system packages installed by `_install_static_qt_linux`. -/
def qt6AptDeps : List String :=
  ["qt6-base-dev", "qt6-tools-dev", "qt6-tools-dev-tools",
   "qt6-declarative-dev", "libqt6opengl6-dev"]

/-- Model of `_install_linux_dependencies`: un-wrapped `sudo apt update`
(sys.exit(1) on failure), the chunked loop (never aborts), python packages,
then `_install_static_qt_linux`: early return on an existing Qt, otherwise
the Qt6 apt install whose SystemExit escapes the except-Exception handler
(its Qt5 fallback is dead code for command failures, which raise SystemExit
rather than Exception). -/
def installLinuxFull (env : InstallEnv) : RunResult :=
  if !env.aptUpdateOk then .exited 1 [Event.aptUpdate]
  else
    let evs := Event.aptUpdate :: aptChunkLoop env.aptChunkFails linuxAllDeps
      ++ pythonDepsEvents env
    if env.noQt then .completed evs
    else if env.existingQtFound && !env.force then .completed evs
    else
      let evs := evs ++ [Event.aptInstall qt6AptDeps]
      if !env.qt6AptOk then .exited 1 evs
      else .completed evs

/-- Model of the `install_system_dependencies` dispatcher. -/
def installSystemDependencies (si : SysInfo) (env : InstallEnv) : RunResult :=
  if si.system = "windows" then installWindowsFull env
  else if si.system = "macos" then installMacosFull env
  else installLinuxFull env

/-- Acquisition phase of a provisioning run: `_detect_system` runs in the
constructor, before any acquisition I/O; its RuntimeError escapes (the
constructor is called outside the try of main). -/
def runProvisioning (h : HostInfo) (env : InstallEnv) : RunResult :=
  match detectSystem h with
  | .error msg => .raised msg []
  | .ok si => installSystemDependencies si env

/-- Exact no-abort condition of the Windows vcpkg setup block. -/
def vcpkgSetupNoAbort (env : InstallEnv) : Bool :=
  (env.win.vcpkgDirExists && !env.win.force) ||
    (env.gitCloneVcpkgOk && (!env.vcpkgBootstrapScriptExists || env.vcpkgBootstrapOk))

/-- Exact completion condition of the Windows acquisition phase.  It does
not mention the per-dependency outcomes (choco tool installs, the vcpkg
qtbase fallback, the parallel vcpkg package installs): those never abort. -/
def windowsAcquisitionNoAbort (env : InstallEnv) : Bool :=
  vcpkgSetupNoAbort env &&
    (env.win.downloadOk || env.win.noQt || staticQtNoAbort env env.win.force)

/-- Exact completion condition of the macOS acquisition phase; independent
of which brew library installs fail. -/
def macosAcquisitionNoAbort (env : InstallEnv) : Bool :=
  (env.haveBrew || env.brewBootstrapOk) && env.clangExists &&
    (env.noQt || staticQtNoAbort env env.force)

/-- Exact completion condition of the Linux acquisition phase; independent
of which apt chunks fail. -/
def linuxAcquisitionNoAbort (env : InstallEnv) : Bool :=
  env.aptUpdateOk &&
    (env.noQt || (env.existingQtFound && !env.force) || env.qt6AptOk)

theorem installMacosFull_completed (env : InstallEnv) :
    (installMacosFull env).isCompleted = macosAcquisitionNoAbort env := by
  obtain ⟨win, gco, bse, bok, eqf, aqd, aqp, pao, sqe, aro,
    hpy, hb, bbo, ce, bf, nq, fc, auo, acf, q6⟩ := env
  cases hb <;> cases bbo <;> cases ce <;> cases nq <;> cases fc <;>
    cases eqf <;> cases aqd <;> cases aqp <;> cases pao <;> cases sqe <;>
    cases aro <;> rfl

theorem installLinuxFull_completed (env : InstallEnv) :
    (installLinuxFull env).isCompleted = linuxAcquisitionNoAbort env := by
  obtain ⟨win, gco, bse, bok, eqf, aqd, aqp, pao, sqe, aro,
    hpy, hb, bbo, ce, bf, nq, fc, auo, acf, q6⟩ := env
  cases auo <;> cases nq <;> cases eqf <;> cases fc <;> cases q6 <;> rfl

theorem installWindowsFull_completed (env : InstallEnv) :
    (installWindowsFull env).isCompleted = windowsAcquisitionNoAbort env := by
  obtain ⟨⟨hc, hg, hch, vde, wf, dok, wnq, sqo, vqo, dvo⟩, gco, bse, bok,
    eqf, aqd, aqp, pao, sqe, aro, hpy, hb, bbo, ce, bf, nq, fc, auo, acf, q6⟩ := env
  cases vde <;> cases wf <;> cases gco <;> cases bse <;> cases bok <;>
    cases dok <;> cases wnq <;> cases eqf <;> cases aqd <;> cases aqp <;>
    cases pao <;> cases sqe <;> cases aro <;> rfl

/-- Host introspection of an Apple-silicon Mac. -/
def c7HostMac : HostInfo := { system := "darwin", machine := "arm64" }

/-- Host introspection of a Linux box. -/
def c7HostLinux : HostInfo := { system := "linux", machine := "x86_64" }

/-- Host introspection of a Windows box. -/
def c7HostWin : HostInfo := { system := "windows", machine := "amd64" }

/-- Baseline healthy environment: every bootstrap step succeeds and an
existing Qt installation is found, so no Qt commands run. -/
def c7EnvBase : InstallEnv :=
  { win := scriptsEnv0, gitCloneVcpkgOk := true, vcpkgBootstrapScriptExists := true,
    vcpkgBootstrapOk := true, existingQtFound := true, aqtQtDirExists := false,
    aqtPresent := true, pipAqtOk := true, staticQtOtherError := false, aqtRunOk := true,
    havePython := true, haveBrew := true, brewBootstrapOk := true, clangExists := true,
    brewFails := fun _ => false, noQt := false, force := false, aptUpdateOk := true,
    aptChunkFails := fun _ => false, qt6AptOk := true }

/-- Environment with the Xcode command-line tools missing. -/
def c7EnvNoClang : InstallEnv := { c7EnvBase with clangExists := false }

/-- Environment where `sudo apt update` fails. -/
def c7EnvAptFail : InstallEnv := { c7EnvBase with aptUpdateOk := false }

/-- Windows flags with the tools present but no vcpkg checkout on disk. -/
def c7WinNoVcpkg : WinEnv := { scriptsEnv0 with vcpkgDirExists := false, haveCmake := true }

/-- Environment with no vcpkg checkout and a failing git clone. -/
def c7EnvCloneFail : InstallEnv :=
  { c7EnvBase with win := c7WinNoVcpkg, gitCloneVcpkgOk := false }

/-- Environment where the static-Qt stage must bootstrap aqtinstall and the
pip install fails. -/
def c7EnvPipFail : InstallEnv :=
  { c7EnvBase with existingQtFound := false, aqtPresent := false, pipAqtOk := false }

/-- C7 counterexample: missing dependencies that do abort the run rather
than being recorded: the Xcode command-line tools on macOS (sys.exit(1)), a
failing `sudo apt update` on Linux, a failing vcpkg git clone on Windows
(its SystemExit escapes the except-Exception handler), and a failing pip
bootstrap of aqtinstall in the macOS static-Qt stage. -/
theorem c7_counterexample :
    runProvisioning c7HostMac c7EnvNoClang = .exited 1 []
    ∧ runProvisioning c7HostLinux c7EnvAptFail = .exited 1 [Event.aptUpdate]
    ∧ runProvisioning c7HostWin c7EnvCloneFail
        = .exited 1 [Event.gitClone "https://github.com/Microsoft/vcpkg.git" "thirdparty/vcpkg"]
    ∧ (runProvisioning c7HostMac c7EnvPipFail).isCompleted = false := by
  decide

/-- C7 amended: an unknown or unsupported platform is rejected by
`_detect_system` with a RuntimeError before any acquisition I/O.  On a known
platform, completion of the acquisition phase is characterised exactly by
the no-abort conditions of the bootstrap and Qt-toolchain steps — and these
conditions are independent of which library-dependency installs fail, so a
missing library dependency never aborts the phase.  The steps whose failure
does abort (their SystemExit escapes the except-Exception handlers) are: on
Windows the vcpkg git clone/bootstrap and the aqtinstall pip/aqt runs of the
static-Qt install; on macOS the Homebrew bootstrap fetch, the Xcode
command-line-tools check and the aqtinstall pip/aqt runs; on Linux
`sudo apt update` and the Qt6 apt install. -/
theorem c7_theorem (h : HostInfo) (env : InstallEnv) :
    (¬(h.system = "windows" ∨ h.system = "darwin" ∨ h.system = "linux") →
        runProvisioning h env = .raised ("Unsupported system: " ++ h.system) [])
    ∧ (h.system = "darwin" →
        (runProvisioning h env).isCompleted = macosAcquisitionNoAbort env)
    ∧ (h.system = "linux" →
        (runProvisioning h env).isCompleted = linuxAcquisitionNoAbort env)
    ∧ (h.system = "windows" →
        (runProvisioning h env).isCompleted = windowsAcquisitionNoAbort env) := by
  obtain ⟨hs, hm⟩ := h
  refine ⟨?_, ?_, ?_, ?_⟩
  · intro hne
    push_neg at hne
    simp [runProvisioning, detectSystem, hne.1, hne.2.1, hne.2.2]
  · intro hd
    subst hd
    have hrun : runProvisioning ⟨"darwin", hm⟩ env = installMacosFull env := by
      unfold runProvisioning detectSystem installSystemDependencies
      rcases Decidable.em (hm = "arm64" ∨ hm = "aarch64") with hmm | hmm <;> simp [hmm]
    rw [hrun, installMacosFull_completed]
  · intro hl
    subst hl
    have hrun : runProvisioning ⟨"linux", hm⟩ env = installLinuxFull env := by
      unfold runProvisioning detectSystem installSystemDependencies
      simp
    rw [hrun, installLinuxFull_completed]
  · intro hw
    subst hw
    have hrun : runProvisioning ⟨"windows", hm⟩ env = installWindowsFull env := by
      unfold runProvisioning detectSystem installSystemDependencies
      simp
    rw [hrun, installWindowsFull_completed]

/-- Unknown host for the C7 witness. -/
def c7HostHaiku : HostInfo := { system := "haiku", machine := "x64" }

/-- C7 witness: at concrete inputs, an unknown platform raises before any
acquisition event, and the macOS and Linux acquisition phases satisfy the
completion characterisation. -/
theorem c7_witness :
    runProvisioning c7HostHaiku c7EnvBase = .raised ("Unsupported system: " ++ "haiku") []
    ∧ (runProvisioning c7HostMac c7EnvBase).isCompleted = macosAcquisitionNoAbort c7EnvBase
    ∧ (runProvisioning c7HostLinux c7EnvBase).isCompleted = linuxAcquisitionNoAbort c7EnvBase :=
  ⟨(c7_theorem c7HostHaiku c7EnvBase).1 (by decide),
   (c7_theorem c7HostMac c7EnvBase).2.1 rfl,
   (c7_theorem c7HostLinux c7EnvBase).2.2.1 rfl⟩

/-! ## C8: packaging an empty library tree
Model of `build_platform_package` (scripts/build_precompiled_libs.py lines
42-136) and `_create_package_info` (lines 206-222). -/

/-- One file under the platform directory, by path relative to it. -/
structure TreeFile where
  rel : String
  size : Nat
  deriving DecidableEq, Repr

/-- World facts consulted by one `build_platform_package` call. -/
structure BuildEnv where
  treeFiles : List TreeFile
  zipWriteFails : Bool
  now : String

/-- JSON scalar values appearing in the sidecar. -/
inductive JVal where
  | s (v : String)
  | n (v : Nat)
  | arr (v : List String)
  deriving DecidableEq, Repr

/-- The essential_libraries list of PrecompiledLibraryBuilder. -/
def essentialLibraries : List String :=
  ["SDL2", "SDL2-image", "SDL2-mixer", "SDL2-ttf",
   "Assimp", "Box2D", "Bullet3", "Lua", "Yaml-cpp", "Pugixml",
   "glad", "spdlog", "nlohmann-json", "minizip", "libstk",
   "libvorbis", "libogg", "libflac", "mp3lame", "mpg123", "opus",
   "bzip2", "lz4", "wavpack", "sqlite3", "openssl", "glm",
   "boost-uuid", "stb", "libsndfile", "qtbase", "pybind11"]

/-- Files below platform_dir/lib, as walked by `lib_dir.rglob`. -/
def libFilesOf (env : BuildEnv) : List TreeFile :=
  env.treeFiles.filter (fun f => leadMatch "lib/".toList f.rel.toList)

/-- Model of `_create_package_info`: the exact key set written to the JSON
sidecar, in program order.  The total_size_mb float is approximated in
hundredths of MiB; no claim depends on its value. -/
def createPackageInfo (platform triplet now : String) (libFiles : List TreeFile) :
    List (String × JVal) :=
  let totalSize := (libFiles.map (fun f => f.size)).sum
  [("platform", JVal.s platform),
   ("triplet", JVal.s triplet),
   ("version", JVal.s "1.0.0"),
   ("build_date", JVal.s now),
   ("library_count", JVal.n libFiles.length),
   ("total_size_bytes", JVal.n totalSize),
   ("total_size_mb", JVal.n ((totalSize * 100 + 524288) / 1048576)),
   ("essential_libraries", JVal.arr essentialLibraries),
   ("description",
    JVal.s ("Precompiled static libraries for Lupine Engine on " ++ platform))]

/-- Result of a `build_platform_package` call. -/
structure BuildOutput where
  ok : Bool
  archiveEntries : List String
  sidecar : List (String × JVal)
  deriving DecidableEq, Repr

/-- Model of `build_platform_package`: walk the platform directory into the
zip (entries carry the platform-name path root); when zero files were added,
write the two .gitkeep placeholder entries instead; an I/O failure while
writing the archive returns False before the sidecar is produced. -/
def buildPlatformPackage (platform triplet : String) (env : BuildEnv) : BuildOutput :=
  if env.zipWriteFails then { ok := false, archiveEntries := [], sidecar := [] }
  else
    let entries := env.treeFiles.map (fun f => platform ++ "/" ++ f.rel)
    let entries :=
      if entries.length = 0 then
        [platform ++ "/lib/.gitkeep", platform ++ "/include/.gitkeep"]
      else entries
    { ok := true, archiveEntries := entries,
      sidecar := createPackageInfo platform triplet env.now (libFilesOf env) }

/-- Empty library tree for the C8 counterexample. -/
def c8EnvEmpty : BuildEnv :=
  { treeFiles := [], zipWriteFails := false, now := "2025-01-01 00:00:00" }

/-- C8 counterexample: packaging the empty tree succeeds, but the sidecar
has no isMinimal key at all (its keys are exactly those of
_create_package_info). -/
theorem c8_counterexample :
    (buildPlatformPackage "Windows" "x64-windows-static" c8EnvEmpty).ok = true
    ∧ ((buildPlatformPackage "Windows" "x64-windows-static" c8EnvEmpty).sidecar.map
         Prod.fst).contains "isMinimal" = false := by
  decide

/-- C8 amended: packaging an empty library tree still succeeds, producing an
archive with exactly the two placeholder entries, and the sidecar records
the platform identity, the item count (zero) and the total byte size (zero);
it has no isMinimal flag, the degenerate package being detectable only
through library_count = 0. -/
theorem c8_theorem (p t : String) (env : BuildEnv)
    (h1 : env.treeFiles = []) (h2 : env.zipWriteFails = false) :
    (buildPlatformPackage p t env).ok = true
    ∧ (buildPlatformPackage p t env).archiveEntries
        = [p ++ "/lib/.gitkeep", p ++ "/include/.gitkeep"]
    ∧ (buildPlatformPackage p t env).sidecar.lookup "platform" = some (JVal.s p)
    ∧ (buildPlatformPackage p t env).sidecar.lookup "library_count" = some (JVal.n 0)
    ∧ (buildPlatformPackage p t env).sidecar.lookup "total_size_bytes" = some (JVal.n 0) := by
  simp [buildPlatformPackage, createPackageInfo, libFilesOf, h1, h2, List.lookup]

/-- Empty library tree for the C8 witness. -/
def c8EnvW : BuildEnv :=
  { treeFiles := [], zipWriteFails := false, now := "2025-02-02 00:00:00" }

/-- C8 witness: the amended theorem applied at a concrete empty tree. -/
theorem c8_witness :
    (buildPlatformPackage "Linux" "x64-linux" c8EnvW).ok = true
    ∧ (buildPlatformPackage "Linux" "x64-linux" c8EnvW).archiveEntries
        = ["Linux" ++ "/lib/.gitkeep", "Linux" ++ "/include/.gitkeep"]
    ∧ (buildPlatformPackage "Linux" "x64-linux" c8EnvW).sidecar.lookup "platform"
        = some (JVal.s "Linux")
    ∧ (buildPlatformPackage "Linux" "x64-linux" c8EnvW).sidecar.lookup "library_count"
        = some (JVal.n 0)
    ∧ (buildPlatformPackage "Linux" "x64-linux" c8EnvW).sidecar.lookup "total_size_bytes"
        = some (JVal.n 0) :=
  c8_theorem "Linux" "x64-linux" c8EnvW rfl rfl

/-! ## C10: the package test and its relation to produced packages
Model of `test_package` (scripts/test_precompiled_libs.py lines 12-49). -/

/-- On-disk state of a candidate package file: absent, or present with a
byte size and, when it is a readable zip, its entry list. -/
inductive PackageFile where
  | missing
  | onDisk (size : Nat) (zipEntries : Option (List String))
  deriving DecidableEq, Repr

/-- Model of `test_package`: exists, non-zero size, opens as a zip, and the
entry list is non-empty; any reading exception yields False. -/
def testPackage : PackageFile → Bool
  | .missing => false
  | .onDisk size zipEntries =>
    if size = 0 then false
    else
      match zipEntries with
      | none => false
      | some names => decide (0 < names.length)

/-- Spec-side acceptance predicate of the claim: the file exists, has
non-zero size, is a valid zip and contains at least one entry. -/
def acceptedSpec (pf : PackageFile) : Prop :=
  ∃ size names, pf = .onDisk size (some names) ∧ size ≠ 0 ∧ names ≠ []

/-- Byte size of a zip holding the given entries: 30-byte local header and
46-byte central record per entry, each repeating the name, plus the 22-byte
end-of-central-directory record; never zero. -/
def zipSizeOf (entries : List String) : Nat :=
  22 + (entries.map (fun e => 76 + 2 * e.length)).sum

/-- The archive file a successful `build_platform_package` run leaves in
precompiled_packages. -/
def producedPackage (p t : String) (env : BuildEnv) : PackageFile :=
  if (buildPlatformPackage p t env).ok then
    PackageFile.onDisk (zipSizeOf (buildPlatformPackage p t env).archiveEntries)
      (some (buildPlatformPackage p t env).archiveEntries)
  else PackageFile.missing

/-- Library tree with exactly one file, for the C10 counterexample. -/
def c10EnvOne : BuildEnv :=
  { treeFiles := [{ rel := "lib/libSDL2.a", size := 1024 }],
    zipWriteFails := false, now := "2025-01-01 00:00:00" }

/-- C10 counterexample: a successful build over a one-file tree produces an
archive with exactly one entry, refuting "such an archive always contains at
least two entries". -/
theorem c10_counterexample :
    (buildPlatformPackage "Mac-ARM64" "arm64-osx" c10EnvOne).ok = true
    ∧ (buildPlatformPackage "Mac-ARM64" "arm64-osx" c10EnvOne).archiveEntries.length = 1 := by
  decide

/-- C10 amended: test_package accepts exactly the existing, non-empty,
valid-zip, at-least-one-entry packages; every archive produced by a
successful build_platform_package run is accepted, because it always has at
least one entry: exactly two placeholder entries when the library tree was
empty, and one entry per file otherwise. -/
theorem c10_theorem (pf : PackageFile) (p t : String) (env : BuildEnv) :
    (testPackage pf = true ↔ acceptedSpec pf)
    ∧ ((buildPlatformPackage p t env).ok = true →
        testPackage (producedPackage p t env) = true)
    ∧ (env.treeFiles = [] → env.zipWriteFails = false →
        (buildPlatformPackage p t env).archiveEntries.length = 2) := by
  refine ⟨?_, ?_, ?_⟩
  · cases pf with
    | missing => simp [testPackage, acceptedSpec]
    | onDisk size z =>
      cases z with
      | none => simp [testPackage, acceptedSpec]
      | some names =>
        by_cases hz : size = 0
        · simp [testPackage, acceptedSpec, hz]
        · simp only [testPackage, acceptedSpec, if_neg hz, decide_eq_true_eq,
            List.length_pos, PackageFile.onDisk.injEq, Option.some.injEq]
          constructor
          · intro h
            exact ⟨size, names, ⟨rfl, rfl⟩, hz, h⟩
          · rintro ⟨s, n, ⟨hs, hn⟩, h0, hne⟩
            subst hs
            subst hn
            exact hne
  · intro hok
    have hzf : env.zipWriteFails = false := by
      by_contra hzf
      rw [Bool.not_eq_false] at hzf
      simp [buildPlatformPackage, hzf] at hok
    cases htf : env.treeFiles with
    | nil =>
      simp [producedPackage, buildPlatformPackage, hzf, htf, testPackage, zipSizeOf]
    | cons f fs =>
      simp [producedPackage, buildPlatformPackage, hzf, htf, testPackage, zipSizeOf]
  · intro h1 h2
    simp [buildPlatformPackage, h1, h2]

/-- Empty library tree for the C10 witness. -/
def c10EnvEmpty : BuildEnv :=
  { treeFiles := [], zipWriteFails := false, now := "2025-03-03 00:00:00" }

/-- C10 witness: at a concrete empty tree, the produced archive passes
test_package and has the two placeholder entries. -/
theorem c10_witness :
    testPackage (producedPackage "Mac-OSX" "x64-osx" c10EnvEmpty) = true
    ∧ (buildPlatformPackage "Mac-OSX" "x64-osx" c10EnvEmpty).archiveEntries.length = 2 :=
  ⟨(c10_theorem PackageFile.missing "Mac-OSX" "x64-osx" c10EnvEmpty).2.1 (by decide),
   (c10_theorem PackageFile.missing "Mac-OSX" "x64-osx" c10EnvEmpty).2.2 rfl rfl⟩

/-! ## C9: shape of the cross-compilation manifest
Model of `_create_cross_compilation_manifest` (scripts lines 835-862).  The
caller, `setup_cross_compilation_libraries`, creates every known platform
directory with mkdir(exist_ok=True) before writing the manifest, which
discharges the directory-existence premise below. -/

/-- One manifest entry per platform. -/
structure PlatEntry where
  available : Bool
  libraryCount : Nat
  path : String
  deriving DecidableEq, Repr

/-- Filesystem facts about the thirdparty directory tree. -/
structure XcFS where
  dirEntries : List String
  isDir : String → Bool
  libDirExists : String → Bool
  libChildren : String → List (String × Bool)

/-- The four platform names recognised by the manifest writer. -/
def knownPlatforms : List String := ["Windows", "Linux", "Mac-OSX", "Mac-ARM64"]

/-- Model of `_create_cross_compilation_manifest`: iterate the children of
thirdparty, keep the directories named after known platforms, and map each
to available/library_count/path; library_count counts the files directly in
the platform lib directory (its `(name, is_file)` children filtered on
is_file), and is 0 with available=false when lib does not exist. -/
def createCrossCompilationManifest (fs : XcFS) : List (String × PlatEntry) :=
  (fs.dirEntries.filter (fun d => fs.isDir d && knownPlatforms.contains d)).map
    (fun d =>
      (d,
       if fs.libDirExists d then
         { available := true,
           libraryCount := ((fs.libChildren d).filter (fun c => c.2)).length,
           path := "thirdparty/" ++ d }
       else
         { available := false, libraryCount := 0, path := "thirdparty/" ++ d }))

theorem lookup_map_pair {β : Type} (f : String → β) (p : String) :
    ∀ (l : List String), p ∈ l → (l.map (fun d => (d, f d))).lookup p = some (f p) := by
  intro l
  induction l with
  | nil => intro h; cases h
  | cons x xs ih =>
    intro hp
    by_cases hx : p = x
    · subst hx; simp [List.lookup]
    · rcases List.mem_cons.mp hp with h | h
      · exact absurd h hx
      · have hbx : (p == x) = false := by simp [hx]
        simpa [List.lookup, hbx] using ih h

/-- C9: the manifest maps each known platform name (whose directory exists,
as the caller guarantees by mkdir) to an entry whose available flag is true
iff the platform lib directory exists, and whose library_count is the number
of files directly in that lib directory, 0 when it does not exist. -/
theorem c9_theorem (fs : XcFS)
    (hdirs : ∀ p ∈ knownPlatforms, p ∈ fs.dirEntries ∧ fs.isDir p = true) :
    ∀ p ∈ knownPlatforms,
      (createCrossCompilationManifest fs).lookup p =
        some { available := fs.libDirExists p,
               libraryCount :=
                 if fs.libDirExists p then
                   ((fs.libChildren p).filter (fun c => c.2)).length
                 else 0,
               path := "thirdparty/" ++ p } := by
  intro p hp
  obtain ⟨hmem, hdir⟩ := hdirs p hp
  have hfil : p ∈ fs.dirEntries.filter (fun d => fs.isDir d && knownPlatforms.contains d) := by
    rw [List.mem_filter]
    refine ⟨hmem, ?_⟩
    rw [hdir, Bool.true_and]
    exact List.elem_eq_true_of_mem hp
  have hmain := lookup_map_pair
    (fun d =>
      if fs.libDirExists d then
        ({ available := true,
           libraryCount := ((fs.libChildren d).filter (fun c => c.2)).length,
           path := "thirdparty/" ++ d } : PlatEntry)
      else { available := false, libraryCount := 0, path := "thirdparty/" ++ d })
    p _ hfil
  unfold createCrossCompilationManifest
  rw [hmain]
  cases hld : fs.libDirExists p <;> simp [hld]

/-- Concrete thirdparty tree for the C9 witness: all four platform
directories exist, only Windows has lib, with two files and one
subdirectory in it. -/
def c9FS : XcFS :=
  { dirEntries := ["vcpkg", "Windows", "Linux", "Mac-OSX", "Mac-ARM64", "Qt"],
    isDir := fun _ => true,
    libDirExists := fun p => p == "Windows",
    libChildren := fun p =>
      if p == "Windows" then [("SDL2.lib", true), ("cmake", false), ("glad.lib", true)]
      else [] }

/-- C9 witness: the theorem instantiated at the concrete tree and the
Windows platform. -/
theorem c9_witness :
    (createCrossCompilationManifest c9FS).lookup "Windows" =
      some { available := c9FS.libDirExists "Windows",
             libraryCount :=
               if c9FS.libDirExists "Windows" then
                 ((c9FS.libChildren "Windows").filter (fun c => c.2)).length
               else 0,
             path := "thirdparty/" ++ "Windows" } :=
  c9_theorem c9FS (by decide) "Windows" (by decide)

end Lupine
